import Mathlib

/-!
Verification development for the VAP pneumonia / aspiration risk
prediction app (source files `12app.py` and
`1pneumonia_prediction_app.py`).

Probabilities and feature values are embedded as rationals; the
threshold constants 0.5 and 0.7 of the source are the exact rationals
1/2 and 7/10 (they are exactly representable floats in the source, so
every comparison against them is faithfully mirrored by the rational
comparison).  Fallible Python operations (indexing, deserialization,
library calls that may raise) are embedded with `Except String` /
`Option`, the string being the exception text `str(e)`.
-/

namespace VAP

/-! ## Risk tiering and protocol selection (main, 12app.py lines 198-283) -/

/-- `risk_level = "High Risk" if proba > 0.5 else "Low Risk"`
(12app.py line 200, 1pneumonia_prediction_app.py line 142). -/
def risk_level (proba : ℚ) : String :=
  if proba > 1/2 then "High Risk" else "Low Risk"

/-- The three canned clinical-recommendation blocks of the
`if proba > 0.7 / elif proba > 0.5 / else` chain
(12app.py lines 240-266, 1pneumonia_prediction_app.py lines 174-197). -/
inductive ProtocolBlock where
  | highRisk
  | moderateRisk
  | lowRisk
deriving DecidableEq, Repr

/-- Which recommendation block `main` renders:
`if proba > 0.7: ... elif proba > 0.5: ... else: ...`
(12app.py lines 240-266).  A function of the probability alone. -/
def recommendationBlock (proba : ℚ) : ProtocolBlock :=
  if proba > 7/10 then .highRisk
  else if proba > 1/2 then .moderateRisk
  else .lowRisk

/-- The `Recommended Protocol` field of the downloadable report:
`"High Risk" if proba > 0.7 else "Moderate Risk" if proba > 0.5 else "Low Risk"`
(12app.py line 274). -/
def recommendedProtocolName (proba : ℚ) : String :=
  if proba > 7/10 then "High Risk"
  else if proba > 1/2 then "Moderate Risk"
  else "Low Risk"

/-! ## Data model: predictor handle and raw SHAP outputs -/

/-- Raw result of `explainer.shap_values(input_df)`: either a single
matrix (rows × features) or a Python list of per-class matrices. -/
inductive ShapVals where
  | arr (m : List (List ℚ))
  | classList (ms : List (List (List ℚ)))
deriving DecidableEq

/-- Raw `explainer.expected_value`: a scalar or a per-class list. -/
inductive ExpVal where
  | scalar (q : ℚ)
  | perClass (qs : List ℚ)
deriving DecidableEq

/-- Which SHAP explainer `plot_shap_explanation` constructs
(12app.py lines 92-95): `shap.TreeExplainer(model)` or
`shap.KernelExplainer(model.predict, shap.sample(input_df, 10))`. -/
inductive ExplainerChoice where
  | tree
  | kernel (background : List (List ℚ))
deriving DecidableEq

/-- The deserialized predictor handle.  A DataFrame is a list of rows,
each row a list of rationals in the fixed feature order.  `predictProba`
embeds `model.predict_proba` (may raise, hence `Except`); the two
`Bool` fields embed `hasattr(model, "tree_")` and
`hasattr(model, "estimators_")`; `shapValues` embeds the external SHAP
computation `explainer.shap_values(input_df)` together with
`explainer.expected_value` for the explainer built by the dispatch
(modelled from the spec: the `shap` library itself is not part of this
repository, so its output on a given predictor, explainer choice and
input is an opaque fallible function carried by the handle). -/
structure Model where
  predictProba : List (List ℚ) → Except String (List (List ℚ))
  hasTreeAttr : Bool
  hasEstimatorsAttr : Bool
  shapValues : ExplainerChoice → List (List ℚ) → Except String (ShapVals × ExpVal)

/-! ## Model Resolver (load_model, 12app.py lines 34-61) -/

/-- State of one candidate file: missing, present and deserializing to
a model, or present but `joblib.load` raises with message `err`. -/
inductive PathState where
  | absent
  | loadable (m : Model)
  | corrupt (err : String)

/-- The candidate locations probed by `load_model`, in source order
(12app.py lines 42-48). -/
def possible_paths : List String :=
  ["models/my_model.pkl", "my_model.pkl", "app/models/my_model.pkl",
   "pneumonia_app/my_model.pkl", "resources/my_model.pkl"]

/-- The `for path in possible_paths` loop inside the `try` block
(12app.py lines 50-56): skip non-existing paths, return the loaded
model at the first existing path, and let `joblib.load` raise if that
file is corrupt; falling off the loop returns `None`. -/
def probeLoop (fs : String → PathState) : List String → Except String (Option Model)
  | [] => .ok none
  | p :: rest =>
    match fs p with
    | .absent => probeLoop fs rest
    | .loadable m => .ok (some m)
    | .corrupt e => .error e

/-- `load_model(file_path=None)` (12app.py lines 35-61): the explicit
`file_path` branch, then the probe loop, all inside one `try` whose
`except` handler logs and returns `None`. -/
def load_model (fs : String → PathState) (file_path : Option String) : Option Model :=
  let body : Except String (Option Model) :=
    match file_path with
    | some fp =>
      match fs fp with
      | .loadable m => .ok (some m)
      | .corrupt e => .error e
      | .absent => .error "FileNotFoundError"
    | none => probeLoop fs possible_paths
  match body with
  | .ok r => r
  | .error _ => none

/-- The resolver as the spec sentence words it (refinement comparison
definition, written from the spec, not from the source): return the
first candidate that exists AND deserializes without error, `none` if
there is no such candidate. -/
def specResolveFirstGood (fs : String → PathState) : List String → Option Model
  | [] => none
  | p :: rest =>
    match fs p with
    | .loadable m => some m
    | _ => specResolveFirstGood fs rest

/-- A trivial concrete predictor handle used in concrete scenarios. -/
def m0 : Model where
  predictProba := fun _ => .ok [[1/4, 3/4]]
  hasTreeAttr := true
  hasEstimatorsAttr := false
  shapValues := fun _ _ => .error "shap unavailable"

/-- Filesystem in which the first candidate exists but is corrupt and
the second candidate exists and deserializes fine. -/
def fsCorruptFirst : String → PathState := fun p =>
  if p = "models/my_model.pkl" then .corrupt "invalid load key"
  else if p = "my_model.pkl" then .loadable m0
  else .absent

/-! ## Inference and Explanation Pipeline
(main and plot_shap_explanation, 12app.py lines 86-128 and 194-289) -/

/-- Python list indexing `l[i]`: raises IndexError out of range. -/
def pyIndex {α : Type} (l : List α) (i : Nat) : Except String α :=
  match l.get? i with
  | some a => .ok a
  | none => .error "IndexError: list index out of range"

/-- Scoring: `proba = model.predict_proba(input_df)[0][1]`
(12app.py line 198, 1pneumonia_prediction_app.py line 134). -/
def scoreProba (m : Model) (input_df : List (List ℚ)) : Except String ℚ :=
  match m.predictProba input_df with
  | .error e => .error e
  | .ok rows =>
    match pyIndex rows 0 with
    | .error e => .error e
    | .ok row0 => pyIndex row0 1

/-- Modelled from the spec: `shap.sample(input_df, 10)` lives in the
external `shap` library, not in this repository; per the spec it draws
a small fixed-size background sample of 10 rows from the input,
embedded deterministically as the first 10 rows. -/
def shapSample (df : List (List ℚ)) (n : Nat) : List (List ℚ) := df.take n

/-- The dispatch of 12app.py line 92:
`if hasattr(model, "tree_") or any(hasattr(model, est) for est in ["tree_", "estimators_"])`
then `shap.TreeExplainer(model)` else
`shap.KernelExplainer(model.predict, shap.sample(input_df, 10))`. -/
def chooseExplainer (m : Model) (input_df : List (List ℚ)) : ExplainerChoice :=
  if m.hasTreeAttr || (m.hasTreeAttr || m.hasEstimatorsAttr) then .tree
  else .kernel (shapSample input_df 10)

/-- `explainer.expected_value[i]`: a scalar expected value is not
subscriptable (TypeError), a per-class list indexes like a list. -/
def expIndex (ev : ExpVal) (i : Nat) : Except String ℚ :=
  match ev with
  | .scalar _ => .error "TypeError: object is not subscriptable"
  | .perClass qs => pyIndex qs i

/-- The multi-output selection of 12app.py lines 101-106:
`if isinstance(shap_values, list) and len(shap_values) > 1` take
`expected_value[1]` and `shap_values[1]`, else take the expected value
(or its head when it is a list) and the raw shap values. -/
def selectPositiveClass (sv : ShapVals) (ev : ExpVal) : Except String (ℚ × ShapVals) :=
  match sv with
  | .classList ms =>
    if ms.length > 1 then
      match expIndex ev 1 with
      | .error e => .error e
      | .ok b =>
        match pyIndex ms 1 with
        | .error e => .error e
        | .ok v => .ok (b, ShapVals.arr v)
    else
      match ev with
      | .scalar q => .ok (q, ShapVals.classList ms)
      | .perClass qs =>
        match pyIndex qs 0 with
        | .error e => .error e
        | .ok b => .ok (b, ShapVals.classList ms)
  | .arr vals =>
    match ev with
    | .scalar q => .ok (q, ShapVals.arr vals)
    | .perClass qs =>
      match pyIndex qs 0 with
      | .error e => .error e
      | .ok b => .ok (b, ShapVals.arr vals)

/-- Outcome of `plot_shap_explanation`: the base value and
contribution matrix handed to `shap.force_plot`, or the caught-error
path (`st.error`, return `None`), or the `model is None` early out. -/
inductive ShapResult where
  | ok (baseValue : ℚ) (shapVals : ShapVals)
  | failed (msg : String)
  | noModel
deriving DecidableEq

/-- `plot_shap_explanation(model, input_df)` (12app.py lines 86-128):
early `None` on a missing model; otherwise build the explainer by the
capability dispatch, compute shap values and expected value, select
the positive class, and catch any raised exception into the
`st.error` message carrying `str(e)`. -/
def plot_shap_explanation (m : Option Model) (input_df : List (List ℚ)) : ShapResult :=
  match m with
  | none => .noModel
  | some model =>
    match model.shapValues (chooseExplainer model input_df) input_df with
    | .error e => .failed ("特征解释生成失败: " ++ e)
    | .ok (sv, ev) =>
      match selectPositiveClass sv ev with
      | .error e => .failed ("特征解释生成失败: " ++ e)
      | .ok (b, v) => .ok b v

/-- Outcome of the predict-button block of `main` (12app.py lines
194-289): on success the probability, the two-tier label, the
explanation outcome and the recommendation block; on a caught
exception the short `st.error` text and the raw `str(e)` shown by
`st.code`. -/
inductive AssessResult where
  | success (proba : ℚ) (riskLevel : String) (shap : ShapResult)
      (recommendation : ProtocolBlock)
  | failure (shortMsg : String) (rawError : String)
deriving DecidableEq

/-- The predict-button block of `main` (12app.py lines 196-289): score,
tier, explain, recommend, with the whole block wrapped in
`try/except` whose handler logs, shows a short message and `st.code(str(e))`. -/
def runAssessment (m : Model) (input_df : List (List ℚ)) : AssessResult :=
  match scoreProba m input_df with
  | .error e => .failure "预测错误 - 请检查输入参数或模型" e
  | .ok proba =>
    .success proba (risk_level proba) (plot_shap_explanation (some m) input_df)
      (recommendationBlock proba)

/-- The `st.session_state` fields touched by `main`
(12app.py lines 136-138, 163-164). -/
structure Session where
  model : Option Model
  uploaded_model : Option String

/-- One press of the predict button as a step on the session: the
handler of 12app.py lines 285-289 never rethrows and never writes
`st.session_state`, so the session passes through unchanged. -/
def predictStep (s : Session) (input_df : List (List ℚ)) :
    Session × Option AssessResult :=
  match s.model with
  | none => (s, none)
  | some m => (s, some (runAssessment m input_df))

/-- An uploaded byte blob, abstracted by what `joblib.load` does on
it: deserializes to a model, or raises with message `err`. -/
inductive Blob where
  | wellFormed (m : Model)
  | malformed (err : String)

/-- What the upload branch reports (12app.py lines 166-168). -/
inductive UploadOutcome where
  | success
  | failureMsg (msg : String)

/-- The upload branch of `main` (12app.py lines 155-168): write the
blob to `uploaded_model.pkl`, then `joblib.load` it; on success store
the model and the save path in the session; on an exception show
`st.error` with `str(e)` and leave the session as it was.  The write
happens before the load, so the file holds the blob in either case. -/
def handleUpload (s : Session) (files : String → Option Blob) (blob : Blob) :
    Session × (String → Option Blob) × UploadOutcome :=
  let files2 := fun p => if p = "uploaded_model.pkl" then some blob else files p
  match blob with
  | .wellFormed m =>
    ({ model := some m, uploaded_model := some "uploaded_model.pkl" },
     files2, .success)
  | .malformed e =>
    (s, files2, .failureMsg ("上传文件处理失败: " ++ e))

/-! ## Attribution values (modelled from the spec)

The attribution numbers themselves are produced by the external
`shap` library (`explainer.shap_values` / `explainer.expected_value`),
which is not part of this repository.  Per the spec, the output is one
signed contribution per feature plus a scalar baseline (the expected
value) reconstructing the predicted probability: these are the Shapley
values of a coalition value function `v` on the feature set, where
`v ∅` is the baseline and `v univ` is the prediction on the instance. -/

/-- Modelled from the spec: the marginal contribution each feature
receives when the features are revealed along the ordering `L`,
starting from the already-revealed coalition `pre`. -/
def contribs {n : Nat} (v : Finset (Fin n) → ℚ) (pre : Finset (Fin n)) :
    List (Fin n) → Fin n → ℚ
  | [] => fun _ => 0
  | a :: rest => fun i =>
    (if i = a then v (insert a pre) - v pre else 0) +
      contribs v (insert a pre) rest i

/-- Modelled from the spec: the SHAP attribution of feature `i` — its
Shapley value, the average over all feature orderings of its marginal
contribution to the coalition value function `v`. -/
def shapleyValue {n : Nat} (v : Finset (Fin n) → ℚ) (i : Fin n) : ℚ :=
  ((List.finRange n).permutations.map (fun L => contribs v ∅ L i)).sum /
    (Nat.factorial n)

/-- A predictor handle with neither a `tree_` nor an `estimators_`
attribute, for the kernel-explainer branch. -/
def mKernel : Model where
  predictProba := fun _ => .ok [[1/2, 1/2]]
  hasTreeAttr := false
  hasEstimatorsAttr := false
  shapValues := fun _ _ => .error "kernel shap unavailable"

/-- A predictor handle whose probability operation raises. -/
def mFails : Model where
  predictProba := fun _ => .error "ValueError: bad input shape"
  hasTreeAttr := false
  hasEstimatorsAttr := false
  shapValues := fun _ _ => .error "shap error"

end VAP

open VAP

/-- C1: the risk tier is a total function of the predicted probability
under the two-tier policy: the tier is "High Risk" exactly when
p > 0.5 and "Low Risk" otherwise; in particular p = 0.5 and p = 0.45
both yield "Low Risk". -/
theorem c1_two_tier_total :
    (∀ p : ℚ, risk_level p = "High Risk" ↔ p > 1/2) ∧
    (∀ p : ℚ, risk_level p = "Low Risk" ↔ p ≤ 1/2) ∧
    risk_level (1/2) = "Low Risk" ∧ risk_level (45/100) = "Low Risk" := by
  refine ⟨fun p => ?_, fun p => ?_, by norm_num [risk_level], by norm_num [risk_level]⟩
  · by_cases h : (1:ℚ)/2 < p
    · unfold risk_level
      rw [if_pos h]
      exact ⟨fun _ => h, fun _ => rfl⟩
    · unfold risk_level
      rw [if_neg h]
      exact ⟨fun hs => absurd hs (by decide), fun hp => absurd hp h⟩
  · by_cases h : (1:ℚ)/2 < p
    · unfold risk_level
      rw [if_pos h]
      exact ⟨fun hs => absurd hs (by decide), fun hp => absurd h (not_lt.mpr hp)⟩
    · unfold risk_level
      rw [if_neg h]
      exact ⟨fun _ => not_lt.mp h, fun _ => rfl⟩

/-- C2: the clinical-protocol recommendation block is selected from the
probability by the three-tier thresholds 0.7 and 0.5: the high-risk
block iff p > 0.7, the moderate block iff 0.5 < p ≤ 0.7, the low block
otherwise; it is a function of the probability alone, so it is
independent of the two-tier label of step 2; p = 0.75 selects the
high-risk block. -/
theorem c2_protocol_three_tier :
    (∀ p : ℚ, recommendationBlock p = .highRisk ↔ p > 7/10) ∧
    (∀ p : ℚ, recommendationBlock p = .moderateRisk ↔ 1/2 < p ∧ p ≤ 7/10) ∧
    (∀ p : ℚ, recommendationBlock p = .lowRisk ↔ p ≤ 1/2) ∧
    recommendationBlock (75/100) = .highRisk := by
  refine ⟨fun p => ?_, fun p => ?_, fun p => ?_, by norm_num [recommendationBlock]⟩
  · by_cases h7 : (7:ℚ)/10 < p
    · unfold recommendationBlock
      rw [if_pos h7]
      exact ⟨fun _ => h7, fun _ => rfl⟩
    · unfold recommendationBlock
      rw [if_neg h7]
      by_cases h5 : (1:ℚ)/2 < p
      · rw [if_pos h5]
        exact ⟨fun hs => absurd hs (by decide), fun hp => absurd hp h7⟩
      · rw [if_neg h5]
        exact ⟨fun hs => absurd hs (by decide), fun hp => absurd hp h7⟩
  · by_cases h7 : (7:ℚ)/10 < p
    · unfold recommendationBlock
      rw [if_pos h7]
      exact ⟨fun hs => absurd hs (by decide),
             fun hp => absurd h7 (not_lt.mpr hp.2)⟩
    · unfold recommendationBlock
      rw [if_neg h7]
      by_cases h5 : (1:ℚ)/2 < p
      · rw [if_pos h5]
        exact ⟨fun _ => ⟨h5, not_lt.mp h7⟩, fun _ => rfl⟩
      · rw [if_neg h5]
        exact ⟨fun hs => absurd hs (by decide), fun hp => absurd hp.1 h5⟩
  · by_cases h7 : (7:ℚ)/10 < p
    · unfold recommendationBlock
      rw [if_pos h7]
      exact ⟨fun hs => absurd hs (by decide),
             fun hp => absurd h7 (not_lt.mpr (le_trans hp (by norm_num)))⟩
    · unfold recommendationBlock
      rw [if_neg h7]
      by_cases h5 : (1:ℚ)/2 < p
      · rw [if_pos h5]
        exact ⟨fun hs => absurd hs (by decide),
               fun hp => absurd h5 (not_lt.mpr hp)⟩
      · rw [if_neg h5]
        exact ⟨fun _ => not_lt.mp h5, fun _ => rfl⟩

/-- C10: for every probability with 0.5 < p ≤ 0.7 the displayed and
exported risk tier is "High Risk" while the selected clinical
recommendation block (and the report's recommended-protocol name) is
the Moderate Risk protocol, so the two disagree in this band. -/
theorem c10_tier_protocol_disagree (p : ℚ) (h1 : 1/2 < p) (h2 : p ≤ 7/10) :
    risk_level p = "High Risk" ∧
    recommendationBlock p = .moderateRisk ∧
    recommendedProtocolName p = "Moderate Risk" ∧
    risk_level p ≠ recommendedProtocolName p := by
  have hle : ¬ (7:ℚ)/10 < p := not_lt.mpr h2
  unfold risk_level recommendationBlock recommendedProtocolName
  rw [if_pos h1, if_neg hle, if_pos h1, if_neg hle, if_pos h1]
  exact ⟨rfl, rfl, rfl, by decide⟩

/-- A probe over paths that all miss falls off the loop. -/
lemma probeLoop_all_absent (fs : String → PathState) :
    ∀ paths : List String, (∀ p ∈ paths, fs p = PathState.absent) →
      probeLoop fs paths = .ok none := by
  intro paths
  induction paths with
  | nil => intro _; rfl
  | cons p rest ih =>
    intro h
    have hp : fs p = PathState.absent := h p (List.mem_cons_self p rest)
    simp only [probeLoop, hp]
    exact ih (fun q hq => h q (List.mem_cons_of_mem p hq))

/-- Skipping a block of missing candidates. -/
lemma probeLoop_append_absent (fs : String → PathState) :
    ∀ pre rest : List String, (∀ q ∈ pre, fs q = PathState.absent) →
      probeLoop fs (pre ++ rest) = probeLoop fs rest := by
  intro pre
  induction pre with
  | nil => intro rest _; rfl
  | cons p front ih =>
    intro rest h
    have hp : fs p = PathState.absent := h p (List.mem_cons_self p front)
    simp only [List.cons_append, probeLoop, hp]
    exact ih rest (fun q hq => h q (List.mem_cons_of_mem p hq))

/-- C3, counterexample: with the first candidate present but corrupt
and the second present and well-formed, `load_model` returns `None`,
not the first candidate that exists and deserializes without error. -/
theorem c3_counterexample :
    load_model fsCorruptFirst none = none ∧
    specResolveFirstGood fsCorruptFirst possible_paths = some m0 ∧
    load_model fsCorruptFirst none ≠ specResolveFirstGood fsCorruptFirst possible_paths := by
  have h1 : load_model fsCorruptFirst none = none := rfl
  have h2 : specResolveFirstGood fsCorruptFirst possible_paths = some m0 := rfl
  refine ⟨h1, h2, ?_⟩
  rw [h1, h2]
  exact fun hcon => Option.noConfusion hcon

/-- C3 amended: `load_model` probes the candidates strictly in the
documented order; with no upload, if every candidate is missing it
returns `None` (pure, so no side effects beyond logging); at the first
existing candidate it returns the deserialized model on success and
returns `None` on a deserialization error, without probing any later
candidate. -/
theorem c3_resolver_first_existing (fs : String → PathState) :
    ((∀ p ∈ possible_paths, fs p = PathState.absent) →
      load_model fs none = none) ∧
    (∀ pre p post, possible_paths = pre ++ p :: post →
      (∀ q ∈ pre, fs q = PathState.absent) →
      (∀ m, fs p = PathState.loadable m → load_model fs none = some m) ∧
      (∀ e, fs p = PathState.corrupt e → load_model fs none = none)) := by
  constructor
  · intro h
    show (match probeLoop fs possible_paths with
          | .ok r => r | .error _ => none) = none
    rw [probeLoop_all_absent fs possible_paths h]
  · intro pre p post hsplit hpre
    have hstep : probeLoop fs possible_paths =
        (match fs p with
         | PathState.absent => probeLoop fs post
         | PathState.loadable m => .ok (some m)
         | PathState.corrupt e => .error e) := by
      rw [hsplit, probeLoop_append_absent fs pre (p :: post) hpre]
      rfl
    constructor
    · intro m hm
      show (match probeLoop fs possible_paths with
            | .ok r => r | .error _ => none) = some m
      rw [hstep, hm]
    · intro e he
      show (match probeLoop fs possible_paths with
            | .ok r => r | .error _ => none) = none
      rw [hstep, he]

/-- Witness for the amended C3: an all-missing filesystem gives
`None`, and the corrupt-first filesystem stops at the first existing
candidate with `None`. -/
theorem c3_resolver_first_existing_witness :
    load_model (fun _ => PathState.absent) none = none ∧
    load_model fsCorruptFirst none = none := by
  constructor
  · exact (c3_resolver_first_existing (fun _ => PathState.absent)).1 (fun _ _ => rfl)
  · exact ((c3_resolver_first_existing fsCorruptFirst).2 []
      "models/my_model.pkl"
      ["my_model.pkl", "app/models/my_model.pkl",
       "pneumonia_app/my_model.pkl", "resources/my_model.pkl"]
      rfl (fun q hq => absurd hq (List.not_mem_nil q))).2
      "invalid load key" rfl

/-- C4: the reported probability is the result of the predictor's
probability operation on the single feature-vector row, at index 1 of
its two-element per-row output. -/
theorem c4_positive_class_proba (m : Model) (input_df : List (List ℚ))
    (p0 p1 : ℚ) (h : m.predictProba input_df = .ok [[p0, p1]]) :
    scoreProba m input_df = .ok p1 := by
  unfold scoreProba
  rw [h]
  rfl

/-- Witness for C4 at the fixed predictor `m0`, whose probability
operation returns the single row `[1/4, 3/4]`. -/
theorem c4_positive_class_proba_witness :
    scoreProba m0 [[30, 240, 20, 50, 1, 20, 7]] = .ok (3/4) :=
  c4_positive_class_proba m0 [[30, 240, 20, 50, 1, 20, 7]] (1/4) (3/4) rfl

/-- C5: the explanation step dispatches on structural capability — a
`tree_` or `estimators_` attribute selects the exact tree explainer,
otherwise the sampling-based kernel explainer with a 10-row background
sample drawn from the input; and a multi-output attribution result
selects index 1 (the positive class) for both the contribution matrix
and the baseline value. -/
theorem c5_explainer_dispatch :
    (∀ (m : Model) (df : List (List ℚ)),
      (m.hasTreeAttr || m.hasEstimatorsAttr) = true →
      chooseExplainer m df = .tree) ∧
    (∀ (m : Model) (df : List (List ℚ)),
      (m.hasTreeAttr || m.hasEstimatorsAttr) = false →
      chooseExplainer m df = .kernel (df.take 10)) ∧
    (∀ (v0 v1 : List (List ℚ)) (vs : List (List (List ℚ)))
       (e0 e1 : ℚ) (es : List ℚ),
      selectPositiveClass (.classList (v0 :: v1 :: vs)) (.perClass (e0 :: e1 :: es)) =
        .ok (e1, .arr v1)) := by
  refine ⟨fun m df h => ?_, fun m df h => ?_, fun v0 v1 vs e0 e1 es => ?_⟩
  · simp [chooseExplainer, h]
  · simp only [Bool.or_eq_false_iff] at h
    simp [chooseExplainer, h.1, h.2, shapSample]
  · have hlen : 1 < (v0 :: v1 :: vs).length := by simp
    simp [selectPositiveClass, hlen, expIndex, pyIndex]

/-- Witness for C5: the tree branch at `m0`, the kernel branch with
its 10-row background at `mKernel`, and the positive-class selection
on a concrete two-class output. -/
theorem c5_explainer_dispatch_witness :
    chooseExplainer m0 [[1, 2, 3, 4, 5, 6, 7]] = .tree ∧
    chooseExplainer mKernel [[1, 2, 3, 4, 5, 6, 7]] =
      .kernel ([[1, 2, 3, 4, 5, 6, 7]].take 10) ∧
    selectPositiveClass (.classList [[[1]], [[2]]]) (.perClass [3, 4]) =
      .ok (4, .arr [[2]]) :=
  ⟨c5_explainer_dispatch.1 m0 [[1, 2, 3, 4, 5, 6, 7]] rfl,
   c5_explainer_dispatch.2.1 mKernel [[1, 2, 3, 4, 5, 6, 7]] rfl,
   c5_explainer_dispatch.2.2 [[1]] [[2]] [] 3 4 []⟩

/-- C7: an exception raised during scoring is caught and surfaced as a
non-fatal result carrying the raw error text; an exception raised
during attribution is caught inside the explanation function and
surfaced with the raw error text; the session (the resolved model) is
never modified by a button press, so a subsequent assessment behaves
exactly as a fresh one. -/
theorem c7_nonfatal_errors :
    (∀ (s : Session) (m : Model) (df : List (List ℚ)) (e : String),
      s.model = some m → scoreProba m df = .error e →
      predictStep s df = (s, some (.failure "预测错误 - 请检查输入参数或模型" e))) ∧
    (∀ (s : Session) (df : List (List ℚ)), (predictStep s df).1 = s) ∧
    (∀ (s : Session) (df df2 : List (List ℚ)),
      predictStep (predictStep s df).1 df2 = predictStep s df2) ∧
    (∀ (m : Model) (df : List (List ℚ)) (e : String),
      m.shapValues (chooseExplainer m df) df = .error e →
      plot_shap_explanation (some m) df = .failed ("特征解释生成失败: " ++ e)) := by
  have hfst : ∀ (s : Session) (df : List (List ℚ)), (predictStep s df).1 = s := by
    intro s df
    cases hs : s.model <;> simp [predictStep, hs]
  refine ⟨fun s m df e hsm hsc => ?_, hfst, fun s df df2 => ?_, fun m df e h => ?_⟩
  · simp [predictStep, hsm, runAssessment, hsc]
  · rw [hfst s df]
  · simp only [plot_shap_explanation, h]

/-- Witness for C7 with the raising predictor `mFails` in the
session. -/
theorem c7_nonfatal_errors_witness :
    predictStep ⟨some mFails, none⟩ [[1, 2, 3, 4, 5, 6, 7]] =
      (⟨some mFails, none⟩,
       some (.failure "预测错误 - 请检查输入参数或模型" "ValueError: bad input shape")) ∧
    (predictStep ⟨some mFails, none⟩ [[1, 2, 3, 4, 5, 6, 7]]).1 =
      ⟨some mFails, none⟩ ∧
    predictStep (predictStep ⟨some mFails, none⟩ [[1, 2, 3, 4, 5, 6, 7]]).1 [[7]] =
      predictStep ⟨some mFails, none⟩ [[7]] ∧
    plot_shap_explanation (some mFails) [[1, 2, 3, 4, 5, 6, 7]] =
      .failed ("特征解释生成失败: " ++ "shap error") :=
  ⟨c7_nonfatal_errors.1 ⟨some mFails, none⟩ mFails [[1, 2, 3, 4, 5, 6, 7]]
      "ValueError: bad input shape" rfl rfl,
   c7_nonfatal_errors.2.1 ⟨some mFails, none⟩ [[1, 2, 3, 4, 5, 6, 7]],
   c7_nonfatal_errors.2.2.1 ⟨some mFails, none⟩ [[1, 2, 3, 4, 5, 6, 7]] [[7]],
   c7_nonfatal_errors.2.2.2 mFails [[1, 2, 3, 4, 5, 6, 7]] "shap error" rfl⟩

/-- C8: the uploaded blob is persisted to `uploaded_model.pkl` whether
or not it deserializes; when deserialization raises, the error outcome
carries the exact underlying error text, the session is unchanged, and
the handler is a total function (no crash). -/
theorem c8_upload_corrupt (s : Session) (files : String → Option Blob) (e : String) :
    handleUpload s files (Blob.malformed e) =
      (s,
       fun p => if p = "uploaded_model.pkl" then some (Blob.malformed e) else files p,
       UploadOutcome.failureMsg ("上传文件处理失败: " ++ e)) ∧
    (handleUpload s files (Blob.malformed e)).2.1 "uploaded_model.pkl" =
      some (Blob.malformed e) ∧
    (∀ m : Model,
      (handleUpload s files (Blob.wellFormed m)).2.1 "uploaded_model.pkl" =
        some (Blob.wellFormed m)) :=
  ⟨rfl, rfl, fun _ => rfl⟩

/-- C9: for a fixed predictor and feature vector, two runs of the
assessment pipeline on identical input produce identical results —
probability, tier label, attribution outcome and recommendation. -/
theorem c9_deterministic (m : Model) (input_df : List (List ℚ))
    (r1 r2 : AssessResult)
    (h1 : r1 = runAssessment m input_df) (h2 : r2 = runAssessment m input_df) :
    r1 = r2 :=
  h1.trans h2.symm

/-- Witness for C9: two runs at the fixed predictor `m0` agree, the
first run evaluated to its explicit result. -/
theorem c9_deterministic_witness :
    AssessResult.success (3/4) "High Risk"
      (.failed ("特征解释生成失败: " ++ "shap unavailable")) ProtocolBlock.highRisk =
    runAssessment m0 [[30, 240, 20, 50, 1, 20, 7]] :=
  c9_deterministic m0 [[30, 240, 20, 50, 1, 20, 7]]
    (AssessResult.success (3/4) "High Risk"
      (.failed ("特征解释生成失败: " ++ "shap unavailable")) ProtocolBlock.highRisk)
    (runAssessment m0 [[30, 240, 20, 50, 1, 20, 7]])
    (by norm_num [runAssessment, scoreProba, pyIndex, m0, risk_level,
      recommendationBlock, plot_shap_explanation, chooseExplainer]) rfl

/-- Witness for C10 at p = 0.6. -/
theorem c10_tier_protocol_disagree_witness :
    risk_level (6/10) = "High Risk" ∧
    recommendationBlock (6/10) = .moderateRisk ∧
    recommendedProtocolName (6/10) = "Moderate Risk" ∧
    risk_level (6/10) ≠ recommendedProtocolName (6/10) :=
  c10_tier_protocol_disagree (6/10) (by norm_num) (by norm_num)

/-- Telescoping: the per-feature contributions along one ordering sum
to the value of the full revealed coalition minus the starting value. -/
lemma contribs_sum {n : Nat} (v : Finset (Fin n) → ℚ) :
    ∀ (L : List (Fin n)) (pre : Finset (Fin n)),
      ∑ i, contribs v pre L i = v (pre ∪ L.toFinset) - v pre := by
  intro L
  induction L with
  | nil =>
    intro pre
    simp [contribs]
  | cons a rest ih =>
    intro pre
    simp only [contribs]
    rw [Finset.sum_add_distrib, ih (insert a pre),
      Fintype.sum_ite_eq' a (fun _ => v (insert a pre) - v pre),
      List.toFinset_cons, Finset.union_insert, ← Finset.insert_union]
    ring

/-- A finite sum and a list sum commute. -/
lemma sum_map_sum_comm {α ι : Type} (l : List α) (s : Finset ι) (f : ι → α → ℚ) :
    ∑ i ∈ s, (l.map (f i)).sum = (l.map (fun a => ∑ i ∈ s, f i a)).sum := by
  induction l with
  | nil => simp
  | cons a t ih => simp [Finset.sum_add_distrib, ih]

/-- Summing a list map whose values are all `c`. -/
lemma list_sum_map_const {α : Type} (l : List α) (f : α → ℚ) (c : ℚ)
    (h : ∀ a ∈ l, f a = c) : (l.map f).sum = (l.length : ℚ) * c := by
  induction l with
  | nil => simp
  | cons a t ih =>
    rw [List.map_cons, List.sum_cons, h a (List.mem_cons_self a t),
      ih (fun b hb => h b (List.mem_cons_of_mem a hb)), List.length_cons]
    push_cast
    ring

/-- Efficiency of the Shapley attribution: the contributions sum to
the full-coalition value minus the baseline. -/
lemma shapley_sum {n : Nat} (v : Finset (Fin n) → ℚ) :
    ∑ i, shapleyValue v i = v Finset.univ - v ∅ := by
  unfold shapleyValue
  rw [← Finset.sum_div, sum_map_sum_comm]
  have hconst : ∀ L ∈ (List.finRange n).permutations,
      ∑ i, contribs v ∅ L i = v Finset.univ - v ∅ := by
    intro L hL
    rw [contribs_sum v L ∅, Finset.empty_union,
      List.toFinset_eq_of_perm L (List.finRange n) (List.mem_permutations.mp hL),
      List.toFinset_finRange]
  rw [list_sum_map_const ((List.finRange n).permutations)
    (fun L => ∑ i, contribs v ∅ L i) (v Finset.univ - v ∅) hconst,
    List.length_permutations, List.length_finRange]
  exact mul_div_cancel_left₀ _ (Nat.cast_ne_zero.mpr (Nat.factorial_ne_zero n))

/-- C6: the attribution output is one signed contribution per feature
plus one scalar baseline, and baseline + sum(contributions) equals the
predicted positive-class probability (exactly, hence within any small
tolerance), for every predictor/feature-vector pair whose coalition
value function has the predicted probability as its full-coalition
value. -/
theorem c6_attribution_additivity {n : Nat} (v : Finset (Fin n) → ℚ)
    (m : Model) (input_df : List (List ℚ)) (p : ℚ)
    (hscore : scoreProba m input_df = .ok p)
    (hv : v Finset.univ = p) :
    v ∅ + ∑ i, shapleyValue v i = p := by
  rw [shapley_sum v, hv]
  ring

/-- Witness for C6 with the fixed predictor `m0` (probability 3/4) and
a one-feature coalition value function with baseline 1/4. -/
theorem c6_attribution_additivity_witness :
    scoreProba m0 [[30, 240, 20, 50, 1, 20, 7]] = .ok (3/4) ∧
    (fun s : Finset (Fin 1) => if (0 : Fin 1) ∈ s then (3:ℚ)/4 else 1/4)
        Finset.univ = 3/4 ∧
    (fun s : Finset (Fin 1) => if (0 : Fin 1) ∈ s then (3:ℚ)/4 else 1/4) ∅ +
      ∑ i, shapleyValue
        (fun s : Finset (Fin 1) => if (0 : Fin 1) ∈ s then (3:ℚ)/4 else 1/4) i =
      3/4 :=
  ⟨rfl, by simp,
   c6_attribution_additivity
     (fun s : Finset (Fin 1) => if (0 : Fin 1) ∈ s then (3:ℚ)/4 else 1/4)
     m0 [[30, 240, 20, 50, 1, 20, 7]] (3/4) rfl (by simp)⟩
